import Mathlib

/-!
Shallow embedding of `rope/base/taskhandle.py`: the cooperative
task-cancellation and progress-reporting primitive (`TaskHandle`,
`JobSet`, the observer notification protocol, and the null variants
`NullTaskHandle` / `NullJobSet`).

Modelling choices:
* Python exceptions become `Except PyError`; `InterruptedTaskError`
  becomes `PyError.interrupted`, and the `TypeError` produced by
  `None += 1` becomes `PyError.typeError`.
* Observers are zero-argument callbacks; the embedded state keeps only
  their identities (`Nat`), and each operation returns the sequence of
  observer identities invoked by `_inform_observers` (a snapshot of
  `self.observers`, invoked in list order).
* `JobSet.done` starts at 0 and is only ever incremented by 1, so it is
  embedded as `Nat`; `count` is caller-supplied and embedded as
  `Option Int` (`none` is Python `None`).
* A `JobSet`'s back-reference to its handle is used by the Python code
  only for `is_stopped()` and `_inform_observers()`; the embedding
  passes the handle's `stopped` flag and observer list explicitly.
* Python's floor division `//` is `Int.fdiv`.
-/

inductive PyError where
  | interrupted
  | typeError
deriving DecidableEq, Repr

/-- State of a `JobSet` (`taskhandle.py`, `JobSet.__init__`):
`count` as given, `done = 0`, `job_name = None`. -/
structure JobSetState where
  name : String
  count : Option Int
  done : Nat
  job_name : Option String
deriving DecidableEq, Repr

/-- State of a `TaskHandle` (`taskhandle.py`, `TaskHandle.__init__`). -/
structure TaskHandleState where
  name : String
  interrupts : Bool
  stopped : Bool
  job_sets : List JobSetState
  observers : List Nat
deriving DecidableEq, Repr

/-- `TaskHandle.__init__(name="Task", interrupts=True)`. -/
def TaskHandle.init (name : String := "Task") (interrupts : Bool := true) :
    TaskHandleState :=
  { name := name, interrupts := interrupts, stopped := false,
    job_sets := [], observers := [] }

/-- `TaskHandle._inform_observers`: calls every observer in a snapshot of
`self.observers`, in list order.  The embedding returns the sequence of
invoked observer identities. -/
def TaskHandle.inform_observers (h : TaskHandleState) : List Nat :=
  h.observers

/-- `TaskHandle.stop`: if `self.interrupts`, set `stopped = True` and
inform observers; otherwise do nothing.  Returns the new state and the
invoked observers. -/
def TaskHandle.stop (h : TaskHandleState) : TaskHandleState × List Nat :=
  if h.interrupts then
    let h' := { h with stopped := true }
    (h', TaskHandle.inform_observers h')
  else
    (h, [])

/-- `TaskHandle.is_stopped`. -/
def TaskHandle.is_stopped (h : TaskHandleState) : Bool :=
  h.stopped

/-- `TaskHandle.current_jobset`: `self.job_sets[-1]` when the list is
nonempty, else `None`. -/
def TaskHandle.current_jobset (h : TaskHandleState) : Option JobSetState :=
  h.job_sets.getLast?

/-- `TaskHandle.add_observer`: appends the observer; informs nobody. -/
def TaskHandle.add_observer (h : TaskHandleState) (o : Nat) : TaskHandleState :=
  { h with observers := h.observers ++ [o] }

/-- `TaskHandle.get_jobsets`. -/
def TaskHandle.get_jobsets (h : TaskHandleState) : List JobSetState :=
  h.job_sets

/-- `TaskHandle.create_jobset(name="JobSet", count=None)`: constructs
`JobSet(self, name, count)`, appends it to `self.job_sets`, informs
observers, and returns it.  Result: (returned job set, new handle state,
invoked observers). -/
def TaskHandle.create_jobset (h : TaskHandleState)
    (name : String := "JobSet") (count : Option Int := none) :
    JobSetState × TaskHandleState × List Nat :=
  let result : JobSetState :=
    { name := name, count := count, done := 0, job_name := none }
  let h' := { h with job_sets := h.job_sets ++ [result] }
  (result, h', TaskHandle.inform_observers h')

/-- `JobSet.check_status`: raises `InterruptedTaskError` when the owning
handle's `is_stopped()` is true. -/
def JobSet.check_status (stopped : Bool) : Except PyError Unit :=
  if stopped then Except.error PyError.interrupted else Except.ok ()

/-- `JobSet.started_job(name)`: `check_status()`, then set
`job_name = name` and inform the handle's observers. -/
def JobSet.started_job (stopped : Bool) (observers : List Nat)
    (js : JobSetState) (name : String) :
    Except PyError (JobSetState × List Nat) := do
  JobSet.check_status stopped
  pure ({ js with job_name := some name }, observers)

/-- `JobSet.finished_job()`: `check_status()`, then `done += 1`, inform
observers, and clear `job_name`. -/
def JobSet.finished_job (stopped : Bool) (observers : List Nat)
    (js : JobSetState) : Except PyError (JobSetState × List Nat) := do
  JobSet.check_status stopped
  pure ({ js with done := js.done + 1, job_name := none }, observers)

/-- `JobSet.get_active_job_name` (deprecated accessor). -/
def JobSet.get_active_job_name (js : JobSetState) : Option String :=
  js.job_name

/-- `JobSet.get_percent_done`: when `count` is not `None` and `> 0`,
`min(done * 100 // count, 100)`; otherwise `None`. -/
def JobSet.get_percent_done (js : JobSetState) : Option Int :=
  match js.count with
  | some c =>
      if c > 0 then some (min (((js.done : Int) * 100).fdiv c) 100) else none
  | none => none

/-- `JobSet.get_name` (deprecated accessor). -/
def JobSet.get_name (js : JobSetState) : String :=
  js.name

/-- `JobSet.increment`: `self.count += 1`.  When `count` is `None`,
Python raises `TypeError` (`None + 1` is unsupported) and the state is
unchanged. -/
def JobSet.increment (js : JobSetState) : Except PyError JobSetState :=
  match js.count with
  | some c => Except.ok { js with count := some (c + 1) }
  | none => Except.error PyError.typeError

/-- Operations a caller can perform on a handle and its job sets.  Job
sets are addressed by their index in the handle's `job_sets` list (in
Python the caller holds the object itself, which always exists). -/
inductive Op where
  | stop
  | addObserver (o : Nat)
  | createJobSet (name : String) (count : Option Int)
  | startedJob (i : Nat) (name : String)
  | finishedJob (i : Nat)
  | checkStatus (i : Nat)
  | increment (i : Nat)
  | getPercentDone (i : Nat)
deriving DecidableEq, Repr

/-- Outcome of one operation: the resulting handle state, the sequence
of observers invoked, and the raised exception if any (the Python code
raises before mutating, so on error the state is unchanged). -/
structure StepResult where
  state : TaskHandleState
  informed : List Nat
  error : Option PyError
deriving DecidableEq, Repr

/-- One operation on the handle, dispatching to the method embeddings
above.  An index with no job set behind it addresses no object; the
corresponding branches perform only the `check_status` that is the
first statement of the Python method (or nothing, for `increment` /
`get_percent_done`, which never consult the handle). -/
def step (s : TaskHandleState) (op : Op) : StepResult :=
  match op with
  | Op.stop =>
      let r := TaskHandle.stop s
      { state := r.1, informed := r.2, error := none }
  | Op.addObserver o =>
      { state := TaskHandle.add_observer s o, informed := [], error := none }
  | Op.createJobSet n c =>
      let r := TaskHandle.create_jobset s n c
      { state := r.2.1, informed := r.2.2, error := none }
  | Op.startedJob i n =>
      match s.job_sets[i]? with
      | some js =>
          match JobSet.started_job (TaskHandle.is_stopped s)
              (TaskHandle.inform_observers s) js n with
          | Except.error e => { state := s, informed := [], error := some e }
          | Except.ok r =>
              { state := { s with job_sets := s.job_sets.set i r.1 },
                informed := r.2, error := none }
      | none =>
          match JobSet.check_status (TaskHandle.is_stopped s) with
          | Except.error e => { state := s, informed := [], error := some e }
          | Except.ok _ => { state := s, informed := [], error := none }
  | Op.finishedJob i =>
      match s.job_sets[i]? with
      | some js =>
          match JobSet.finished_job (TaskHandle.is_stopped s)
              (TaskHandle.inform_observers s) js with
          | Except.error e => { state := s, informed := [], error := some e }
          | Except.ok r =>
              { state := { s with job_sets := s.job_sets.set i r.1 },
                informed := r.2, error := none }
      | none =>
          match JobSet.check_status (TaskHandle.is_stopped s) with
          | Except.error e => { state := s, informed := [], error := some e }
          | Except.ok _ => { state := s, informed := [], error := none }
  | Op.checkStatus _ =>
      match JobSet.check_status (TaskHandle.is_stopped s) with
      | Except.error e => { state := s, informed := [], error := some e }
      | Except.ok _ => { state := s, informed := [], error := none }
  | Op.increment i =>
      match s.job_sets[i]? with
      | some js =>
          match JobSet.increment js with
          | Except.error e => { state := s, informed := [], error := some e }
          | Except.ok js' =>
              { state := { s with job_sets := s.job_sets.set i js' },
                informed := [], error := none }
      | none => { state := s, informed := [], error := none }
  | Op.getPercentDone _ =>
      { state := s, informed := [], error := none }

/-- Run a sequence of operations, threading the handle state (errors
leave the state unchanged, as in the Python code). -/
def run (s : TaskHandleState) (ops : List Op) : TaskHandleState :=
  ops.foldl (fun t op => (step t op).state) s

/-- `NullTaskHandle`: stateless stand-in. -/
structure NullTaskHandle where
deriving DecidableEq, Repr

/-- `NullJobSet`: stateless stand-in. -/
structure NullJobSet where
deriving DecidableEq, Repr

/-- `NullTaskHandle.is_stopped`: always `False`. -/
def NullTaskHandle.is_stopped (_ : NullTaskHandle) : Bool :=
  false

/-- `NullTaskHandle.stop`: no-op, informs nobody. -/
def NullTaskHandle.stop (h : NullTaskHandle) : NullTaskHandle × List Nat :=
  (h, [])

/-- `NullTaskHandle.create_jobset(*args, **kwds)`: returns a fresh
`NullJobSet`. -/
def NullTaskHandle.create_jobset (h : NullTaskHandle) :
    NullJobSet × NullTaskHandle × List Nat :=
  (NullJobSet.mk, h, [])

/-- `NullTaskHandle.get_jobsets`: always `[]`. -/
def NullTaskHandle.get_jobsets (_ : NullTaskHandle) : List NullJobSet :=
  []

/-- `NullTaskHandle.add_observer`: accepts the observer, never invokes
it, changes nothing. -/
def NullTaskHandle.add_observer (h : NullTaskHandle) (_ : Nat) :
    NullTaskHandle × List Nat :=
  (h, [])

/-- `NullTaskHandle.current_jobset`: always `None`. -/
def NullTaskHandle.current_jobset (_ : NullTaskHandle) : Option NullJobSet :=
  none

/-- `NullJobSet.started_job`: no-op, no exception. -/
def NullJobSet.started_job (j : NullJobSet) (_ : String) :
    Except PyError NullJobSet :=
  Except.ok j

/-- `NullJobSet.finished_job`: no-op, no exception. -/
def NullJobSet.finished_job (j : NullJobSet) : Except PyError NullJobSet :=
  Except.ok j

/-- `NullJobSet.check_status`: no-op, never raises. -/
def NullJobSet.check_status (_ : NullJobSet) : Except PyError Unit :=
  Except.ok ()

/-- `NullJobSet.get_active_job_name`: returns `None`. -/
def NullJobSet.get_active_job_name (_ : NullJobSet) : Option String :=
  none

/-- `NullJobSet.get_percent_done`: always `None`. -/
def NullJobSet.get_percent_done (_ : NullJobSet) : Option Int :=
  none

/-- `NullJobSet.get_name`: returns `None`. -/
def NullJobSet.get_name (_ : NullJobSet) : Option String :=
  none

/-- `NullJobSet.increment`: no-op, no exception. -/
def NullJobSet.increment (j : NullJobSet) : Except PyError NullJobSet :=
  Except.ok j

/-! ### General lemmas about `step` and `run` -/

theorem step_interrupts (s : TaskHandleState) (op : Op) :
    (step s op).state.interrupts = s.interrupts := by
  cases op <;>
    simp only [step, TaskHandle.stop, TaskHandle.add_observer,
      TaskHandle.create_jobset, TaskHandle.inform_observers] <;>
    (repeat' split) <;> rfl

theorem step_stopped_true (s : TaskHandleState) (op : Op)
    (h : s.stopped = true) : (step s op).state.stopped = true := by
  cases op <;>
    simp only [step, TaskHandle.stop, TaskHandle.add_observer,
      TaskHandle.create_jobset, TaskHandle.inform_observers] <;>
    (repeat' split) <;> simp_all

theorem step_stopped_of_not_interrupts (s : TaskHandleState) (op : Op)
    (h : s.interrupts = false) : (step s op).state.stopped = s.stopped := by
  cases op <;>
    simp only [step, TaskHandle.stop, TaskHandle.add_observer,
      TaskHandle.create_jobset, TaskHandle.inform_observers] <;>
    (repeat' split) <;> simp_all

theorem started_job_eq (stopped : Bool) (obs : List Nat) (js : JobSetState)
    (n : String) :
    JobSet.started_job stopped obs js n =
      if stopped then Except.error PyError.interrupted
      else Except.ok ({ js with job_name := some n }, obs) := by
  cases stopped <;> rfl

theorem finished_job_eq (stopped : Bool) (obs : List Nat) (js : JobSetState) :
    JobSet.finished_job stopped obs js =
      if stopped then Except.error PyError.interrupted
      else Except.ok ({ js with done := js.done + 1, job_name := none }, obs) := by
  cases stopped <;> rfl

theorem step_stop_eq (s : TaskHandleState) :
    step s Op.stop =
      { state := if s.interrupts then { s with stopped := true } else s,
        informed := if s.interrupts then s.observers else [],
        error := none } := by
  cases hi : s.interrupts <;>
    simp [step, TaskHandle.stop, TaskHandle.inform_observers, hi]

theorem step_addObserver_eq (s : TaskHandleState) (o : Nat) :
    step s (Op.addObserver o) =
      { state := { s with observers := s.observers ++ [o] },
        informed := [], error := none } :=
  rfl

theorem step_createJobSet_eq (s : TaskHandleState) (n : String)
    (c : Option Int) :
    step s (Op.createJobSet n c) =
      { state := { s with job_sets :=
          s.job_sets ++ [{ name := n, count := c, done := 0, job_name := none }] },
        informed := s.observers, error := none } :=
  rfl

theorem step_startedJob_eq (s : TaskHandleState) (i : Nat) (n : String) :
    step s (Op.startedJob i n) =
      if s.stopped then
        { state := s, informed := [], error := some PyError.interrupted }
      else
        match s.job_sets[i]? with
        | some js =>
            { state := { s with job_sets := s.job_sets.set i { js with job_name := some n } },
              informed := s.observers, error := none }
        | none => { state := s, informed := [], error := none } := by
  cases hs : s.stopped <;> cases hj : s.job_sets[i]? <;>
    simp [step, TaskHandle.is_stopped, TaskHandle.inform_observers,
      started_job_eq, JobSet.check_status, hs, hj]

theorem step_finishedJob_eq (s : TaskHandleState) (i : Nat) :
    step s (Op.finishedJob i) =
      if s.stopped then
        { state := s, informed := [], error := some PyError.interrupted }
      else
        match s.job_sets[i]? with
        | some js =>
            { state := { s with job_sets := s.job_sets.set i { js with done := js.done + 1, job_name := none } },
              informed := s.observers, error := none }
        | none => { state := s, informed := [], error := none } := by
  cases hs : s.stopped <;> cases hj : s.job_sets[i]? <;>
    simp [step, TaskHandle.is_stopped, TaskHandle.inform_observers,
      finished_job_eq, JobSet.check_status, hs, hj]

theorem step_checkStatus_eq (s : TaskHandleState) (i : Nat) :
    step s (Op.checkStatus i) =
      { state := s, informed := [],
        error := if s.stopped then some PyError.interrupted else none } := by
  cases hs : s.stopped <;>
    simp [step, TaskHandle.is_stopped, JobSet.check_status, hs]

theorem step_increment_eq (s : TaskHandleState) (i : Nat) :
    step s (Op.increment i) =
      match s.job_sets[i]? with
      | some js =>
          match js.count with
          | some c =>
              { state := { s with job_sets := s.job_sets.set i { js with count := some (c + 1) } },
                informed := [], error := none }
          | none => { state := s, informed := [], error := some PyError.typeError }
      | none => { state := s, informed := [], error := none } := by
  cases hj : s.job_sets[i]? with
  | none => simp [step, hj]
  | some js =>
      cases hc : js.count <;> simp [step, JobSet.increment, hj, hc]

theorem step_getPercentDone_eq (s : TaskHandleState) (i : Nat) :
    step s (Op.getPercentDone i) =
      { state := s, informed := [], error := none } :=
  rfl

/-- Any step that raises `InterruptedTaskError` does so from a stopped
handle, and is a `started_job`, `finished_job` or `check_status` call. -/
theorem step_interrupted_shape (s : TaskHandleState) (op : Op)
    (h : (step s op).error = some PyError.interrupted) :
    s.stopped = true ∧
    ((∃ i n, op = Op.startedJob i n) ∨ (∃ i, op = Op.finishedJob i) ∨
      (∃ i, op = Op.checkStatus i)) := by
  cases op with
  | stop => simp [step_stop_eq] at h
  | addObserver o => simp [step_addObserver_eq] at h
  | createJobSet n c => simp [step_createJobSet_eq] at h
  | startedJob i n =>
      rw [step_startedJob_eq] at h
      split at h
      · exact ⟨by assumption, Or.inl ⟨i, n, rfl⟩⟩
      · split at h <;> simp at h
  | finishedJob i =>
      rw [step_finishedJob_eq] at h
      split at h
      · exact ⟨by assumption, Or.inr (Or.inl ⟨i, rfl⟩)⟩
      · split at h <;> simp at h
  | checkStatus i =>
      rw [step_checkStatus_eq] at h
      simp only at h
      split at h
      · exact ⟨by assumption, Or.inr (Or.inr ⟨i, rfl⟩)⟩
      · simp at h
  | increment i =>
      rw [step_increment_eq] at h
      split at h
      · split at h <;> simp_all
      · simp at h
  | getPercentDone i => simp [step_getPercentDone_eq] at h

theorem step_not_interrupted (s : TaskHandleState) (op : Op)
    (h : s.stopped = false) : (step s op).error ≠ some PyError.interrupted := by
  intro hc
  have := (step_interrupted_shape s op hc).1
  simp_all

theorem run_interrupts (s : TaskHandleState) (ops : List Op) :
    (run s ops).interrupts = s.interrupts := by
  induction ops generalizing s with
  | nil => rfl
  | cons op ops ih => exact (ih _).trans (step_interrupts s op)

theorem run_stopped_true (s : TaskHandleState) (ops : List Op)
    (h : s.stopped = true) : (run s ops).stopped = true := by
  induction ops generalizing s with
  | nil => exact h
  | cons op ops ih => exact ih _ (step_stopped_true s op h)

theorem run_stopped_of_not_interrupts (s : TaskHandleState) (ops : List Op)
    (hi : s.interrupts = false) (hs : s.stopped = false) :
    (run s ops).stopped = false := by
  induction ops generalizing s with
  | nil => exact hs
  | cons op ops ih =>
      refine ih _ ?_ ?_
      · exact (step_interrupts s op).trans hi
      · exact (step_stopped_of_not_interrupts s op hi).trans hs

theorem get_percent_done_char (js : JobSetState) (c : Int)
    (h : js.count = some c) (hc : 0 < c) :
    JobSet.get_percent_done js =
      some (min (((js.done : Int) * 100) / c) 100) := by
  simp [JobSet.get_percent_done, h, hc, Int.fdiv_eq_ediv _ (le_of_lt hc)]

/-! ### Claim theorems -/

/-- C1: For every `TaskHandle` constructed with `interrupts = true`, after
`stop()` the handle reports `is_stopped() = true`; moreover from any
stopped handle state, the handle stays stopped under every further
operation sequence, and every `started_job`, `finished_job` or
`check_status` call on any job set of the handle raises
`InterruptedTaskError`. -/
theorem stop_interruptible_then_jobs_interrupted (h : TaskHandleState)
    (hi : h.interrupts = true) :
    TaskHandle.is_stopped (step h Op.stop).state = true ∧
    (∀ s : TaskHandleState, TaskHandle.is_stopped s = true →
      (∀ ops : List Op, TaskHandle.is_stopped (run s ops) = true) ∧
      (∀ i n, (step s (Op.startedJob i n)).error = some PyError.interrupted) ∧
      (∀ i, (step s (Op.finishedJob i)).error = some PyError.interrupted) ∧
      (∀ i, (step s (Op.checkStatus i)).error = some PyError.interrupted)) := by
  constructor
  · simp [step_stop_eq, TaskHandle.is_stopped, hi]
  · intro s hs
    have hs' : s.stopped = true := hs
    refine ⟨fun ops => run_stopped_true s ops hs', fun i n => ?_, fun i => ?_,
      fun i => ?_⟩
    · simp [step_startedJob_eq, hs']
    · simp [step_finishedJob_eq, hs']
    · simp [step_checkStatus_eq, hs']

/-- Witness for C1: a freshly constructed interruptible handle is stopped
after `stop()`, and `started_job` on it then raises
`InterruptedTaskError`. -/
theorem stop_interruptible_then_jobs_interrupted_witness :
    TaskHandle.is_stopped (step (TaskHandle.init "Task" true) Op.stop).state = true ∧
    (step (step (TaskHandle.init "Task" true) Op.stop).state
      (Op.startedJob 0 "a")).error = some PyError.interrupted := by
  have t := stop_interruptible_then_jobs_interrupted (TaskHandle.init "Task" true) rfl
  exact ⟨t.1, (t.2 _ t.1).2.1 0 "a"⟩

/-- C2 counterexample: on a handle constructed with `interrupts = false`
that has observer `7` registered, `stop()` invokes no observer at all,
refuting the claim that every call to `stop` invokes every currently
registered observer exactly once regardless of the interruptible flag. -/
theorem stop_not_interruptible_informs_nobody :
    (TaskHandleState.mk "Task" false false [] [7]).observers = [7] ∧
    (step (TaskHandleState.mk "Task" false false [] [7]) Op.stop).informed = [] ∧
    ([] : List Nat) ≠ [7] :=
  ⟨rfl, rfl, by decide⟩

/-- C2 (amended): `create_jobset` always invokes every currently
registered observer exactly once, in registration order; `stop` does so
exactly when the handle is interruptible (otherwise it invokes none);
`started_job` and `finished_job` do so exactly when the handle is not
stopped (when they raise `InterruptedTaskError` they invoke none). -/
theorem observers_notified_per_op (s : TaskHandleState) (i : Nat)
    (hi : i < s.job_sets.length) (n : String) (c : Option Int) :
    (step s Op.stop).informed = (if s.interrupts then s.observers else []) ∧
    (step s (Op.createJobSet n c)).informed = s.observers ∧
    (step s (Op.startedJob i n)).informed =
      (if s.stopped then [] else s.observers) ∧
    (step s (Op.finishedJob i)).informed =
      (if s.stopped then [] else s.observers) := by
  have hj : s.job_sets[i]? = some s.job_sets[i] := List.getElem?_eq_getElem hi
  refine ⟨?_, rfl, ?_, ?_⟩
  · rw [step_stop_eq]
  · rw [step_startedJob_eq]
    cases hs : s.stopped <;> simp [hj]
  · rw [step_finishedJob_eq]
    cases hs : s.stopped <;> simp [hj]

/-- Witness for amended C2: on a running handle with observers `[3, 4]`
and one job set, `started_job` invokes exactly `[3, 4]`, in order. -/
theorem observers_notified_per_op_witness :
    (step (TaskHandleState.mk "T" true false
        [{ name := "J", count := none, done := 0, job_name := none }] [3, 4])
      (Op.startedJob 0 "a")).informed = [3, 4] := by
  have t := observers_notified_per_op (TaskHandleState.mk "T" true false
      [{ name := "J", count := none, done := 0, job_name := none }] [3, 4])
    0 (by decide) "a" none
  simpa using t.2.2.1

/-- C3 counterexample: on a job set created with `count = None`, a single
`increment()` call does not succeed: it raises `TypeError`
(`None += 1`), refuting the claim that three `increment()` calls
succeed. -/
theorem increment_absent_count_raises :
    JobSet.increment
        { name := "JobSet", count := none, done := 0, job_name := none } =
      Except.error PyError.typeError ∧
    (step (TaskHandleState.mk "Task" true false
        [{ name := "JobSet", count := none, done := 0, job_name := none }] [])
      (Op.increment 0)).error = some PyError.typeError ∧
    some PyError.typeError ≠ (none : Option PyError) :=
  ⟨rfl, rfl, by decide⟩

/-- C3 (amended): for a job set whose `count` is absent, `increment()`
raises `TypeError` (leaving the state unchanged, so `get_percent_done()`
still returns `None`), while `started_job` and `finished_job` on a
running handle still succeed, `finished_job` still increments `done`,
and the percentage stays `None`. -/
theorem jobset_absent_count_behavior (js : JobSetState) (h : js.count = none)
    (obs : List Nat) (n : String) :
    JobSet.increment js = Except.error PyError.typeError ∧
    JobSet.get_percent_done js = none ∧
    (∃ r, JobSet.started_job false obs js n = Except.ok r) ∧
    (∃ js' obs', JobSet.finished_job false obs js = Except.ok (js', obs') ∧
      js'.done = js.done + 1 ∧ JobSet.get_percent_done js' = none) := by
  refine ⟨?_, ?_, ⟨_, rfl⟩, ⟨_, _, rfl, rfl, ?_⟩⟩ <;>
    simp [JobSet.increment, JobSet.get_percent_done, h]

/-- Witness for amended C3 at a concrete job set with `count = None` and
`done = 2`. -/
theorem jobset_absent_count_behavior_witness :
    JobSet.increment
        { name := "JobSet", count := none, done := 2, job_name := none } =
      Except.error PyError.typeError ∧
    (∃ js' obs', JobSet.finished_job false []
        { name := "JobSet", count := none, done := 2, job_name := none } =
        Except.ok (js', obs') ∧ js'.done = 3 ∧
      JobSet.get_percent_done js' = none) := by
  have t := jobset_absent_count_behavior
    { name := "JobSet", count := none, done := 2, job_name := none } rfl [] "a"
  exact ⟨t.1, t.2.2.2⟩

/-- C4: `get_percent_done()` returns `None` exactly when `count` is
absent or `count ≤ 0`; for defined `count > 0` the result is defined and
lies in `[0, 100]`, equals `100` whenever `done ≥ count`, and is
monotonically non-decreasing in `done` with `count` held fixed. -/
theorem get_percent_done_bounds (js : JobSetState) (c : Int) :
    (JobSet.get_percent_done js = none ↔
      js.count = none ∨ ∃ c0, js.count = some c0 ∧ c0 ≤ 0) ∧
    (js.count = some c → 0 < c →
      (∃ p, JobSet.get_percent_done js = some p ∧ 0 ≤ p ∧ p ≤ 100) ∧
      (c ≤ (js.done : Int) → JobSet.get_percent_done js = some 100) ∧
      (∀ d1 d2 : Nat, d1 ≤ d2 → ∀ p1 p2 : Int,
        JobSet.get_percent_done { js with done := d1 } = some p1 →
        JobSet.get_percent_done { js with done := d2 } = some p2 →
        p1 ≤ p2)) := by
  constructor
  · cases hcnt : js.count with
    | none => simp [JobSet.get_percent_done, hcnt]
    | some c0 =>
        by_cases hpos : 0 < c0
        · simp [JobSet.get_percent_done, hcnt, hpos]
        · simp [JobSet.get_percent_done, hcnt, hpos]
          omega
  · intro h hc
    refine ⟨?_, ?_, ?_⟩
    · refine ⟨min (((js.done : Int) * 100) / c) 100,
        get_percent_done_char js c h hc, ?_, min_le_right _ _⟩
      exact le_min (Int.ediv_nonneg (by positivity) (le_of_lt hc)) (by norm_num)
    · intro hdc
      rw [get_percent_done_char js c h hc]
      have h100 : (100 : Int) ≤ ((js.done : Int) * 100) / c := by
        have : (100 * c) / c ≤ ((js.done : Int) * 100) / c :=
          Int.ediv_le_ediv hc (by nlinarith)
        rwa [Int.mul_ediv_cancel _ (ne_of_gt hc)] at this
      have : min (((js.done : Int) * 100) / c) 100 = 100 := min_eq_right h100
      rw [this]
    · intro d1 d2 hd p1 p2 h1 h2
      rw [get_percent_done_char { js with done := d1 } c h hc] at h1
      rw [get_percent_done_char { js with done := d2 } c h hc] at h2
      injection h1 with h1
      injection h2 with h2
      subst h1
      subst h2
      have : ((d1 : Int) * 100) / c ≤ ((d2 : Int) * 100) / c := by
        apply Int.ediv_le_ediv hc
        have : (d1 : Int) ≤ (d2 : Int) := by exact_mod_cast hd
        nlinarith
      exact min_le_min this (le_refl 100)

/-- Witness for C4: with `count = 2` the percentage is defined and in
bounds at `done = 1`, and equals `100` at `done = 3 ≥ count`. -/
theorem get_percent_done_bounds_witness :
    (∃ p, JobSet.get_percent_done
        { name := "JobSet", count := some 2, done := 1, job_name := none } =
      some p ∧ 0 ≤ p ∧ p ≤ 100) ∧
    JobSet.get_percent_done
        { name := "JobSet", count := some 2, done := 3, job_name := none } =
      some 100 := by
  have t1 := get_percent_done_bounds
    { name := "JobSet", count := some 2, done := 1, job_name := none } 2
  have t3 := get_percent_done_bounds
    { name := "JobSet", count := some 2, done := 3, job_name := none } 2
  exact ⟨(t1.2 rfl (by norm_num)).1, (t3.2 rfl (by norm_num)).2.1 (by norm_num)⟩

/-- C5: For every handle with `interrupts = false` and not stopped, after
any sequence of operations (including any number of `stop()` calls) the
`stopped` flag is still false, `is_stopped()` returns false, and no
further operation ever raises `InterruptedTaskError`; in particular
`stopped` can only become true when `interrupts` is true. -/
theorem not_interruptible_never_stopped (h : TaskHandleState)
    (hi : h.interrupts = false) (hs : h.stopped = false)
    (ops : List Op) (op : Op) :
    (run h ops).stopped = false ∧
    TaskHandle.is_stopped (run h ops) = false ∧
    (step (run h ops) op).error ≠ some PyError.interrupted := by
  have h1 := run_stopped_of_not_interrupts h ops hi hs
  exact ⟨h1, h1, step_not_interrupted _ op h1⟩

/-- Witness for C5: a non-interruptible handle that is stopped, given a
job set and a started job stays unstopped, and `check_status` does not
raise. -/
theorem not_interruptible_never_stopped_witness :
    TaskHandle.is_stopped (run (TaskHandle.init "Task" false)
      [Op.stop, Op.createJobSet "JobSet" none, Op.startedJob 0 "a"]) = false ∧
    (step (run (TaskHandle.init "Task" false)
      [Op.stop, Op.createJobSet "JobSet" none, Op.startedJob 0 "a"])
      (Op.checkStatus 0)).error ≠ some PyError.interrupted := by
  have t := not_interruptible_never_stopped (TaskHandle.init "Task" false) rfl rfl
    [Op.stop, Op.createJobSet "JobSet" none, Op.startedJob 0 "a"]
    (Op.checkStatus 0)
  exact ⟨t.2.1, t.2.2⟩

/-- C6: on a stopped handle, `started_job` and `finished_job` raise
`InterruptedTaskError` and leave the whole handle state — in particular
every job set's `done` counter and `job_name` — unchanged: the
cancellation check happens before any mutation. -/
theorem job_ops_check_before_mutation (s : TaskHandleState)
    (hs : TaskHandle.is_stopped s = true) (i : Nat) (n : String) :
    (step s (Op.startedJob i n)).error = some PyError.interrupted ∧
    (step s (Op.startedJob i n)).state = s ∧
    (step s (Op.finishedJob i)).error = some PyError.interrupted ∧
    (step s (Op.finishedJob i)).state = s := by
  have hs' : s.stopped = true := hs
  refine ⟨?_, ?_, ?_, ?_⟩ <;> simp [step_startedJob_eq, step_finishedJob_eq, hs']

/-- Witness for C6, the spec's scenario: create an interruptible handle,
a job set "Phase1" with `count = 2`, start job "a", finish it (so
`done = 1`), then `stop()`; `started_job "b"` raises
`InterruptedTaskError` and `done` remains 1. -/
theorem job_ops_check_before_mutation_witness :
    (step (run (TaskHandle.init "Task" true)
        [Op.createJobSet "Phase1" (some 2), Op.startedJob 0 "a",
         Op.finishedJob 0, Op.stop]) (Op.startedJob 0 "b")).error =
      some PyError.interrupted ∧
    ((step (run (TaskHandle.init "Task" true)
        [Op.createJobSet "Phase1" (some 2), Op.startedJob 0 "a",
         Op.finishedJob 0, Op.stop]) (Op.startedJob 0 "b")).state.job_sets.map
      JobSetState.done) = [1] := by
  have t := job_ops_check_before_mutation (run (TaskHandle.init "Task" true)
      [Op.createJobSet "Phase1" (some 2), Op.startedJob 0 "a",
       Op.finishedJob 0, Op.stop]) rfl 0 "b"
  refine ⟨t.1, ?_⟩
  rw [t.2.1]
  rfl

/-- C7: `create_jobset(name, count)` returns the fresh job set
`{name, count, done = 0, job_name = None}`, appends exactly it to the
end of the handle's job-set sequence, invokes every registered observer,
and never raises; it neither reads nor changes the `stopped` flag, so it
behaves identically on a stopped handle (the statement quantifies over
every handle state, stopped or not). -/
theorem create_jobset_appends_notifies_returns (h : TaskHandleState)
    (n : String) (c : Option Int) :
    (TaskHandle.create_jobset h n c).1 =
      { name := n, count := c, done := 0, job_name := none } ∧
    (TaskHandle.create_jobset h n c).2.1.job_sets =
      h.job_sets ++ [(TaskHandle.create_jobset h n c).1] ∧
    (TaskHandle.create_jobset h n c).2.2 = h.observers ∧
    (step h (Op.createJobSet n c)).error = none ∧
    (step h (Op.createJobSet n c)).state = (TaskHandle.create_jobset h n c).2.1 ∧
    (step h (Op.createJobSet n c)).state.stopped = h.stopped ∧
    (step h (Op.createJobSet n c)).state.observers = h.observers :=
  ⟨rfl, rfl, rfl, rfl, rfl, rfl, rfl⟩

/-- C8: every operation of `NullTaskHandle` and `NullJobSet` is callable
without raising: `is_stopped()` is always false, `get_percent_done()` is
always `None`, `create_jobset()` returns a fresh `NullJobSet`,
`stop` / `started_job` / `finished_job` / `check_status` / `increment`
are no-ops, and observers are accepted but never invoked. -/
theorem null_variants_inert (h : NullTaskHandle) (j : NullJobSet)
    (n : String) (o : Nat) :
    NullTaskHandle.is_stopped h = false ∧
    NullTaskHandle.stop h = (h, []) ∧
    NullTaskHandle.create_jobset h = (NullJobSet.mk, h, []) ∧
    NullTaskHandle.get_jobsets h = [] ∧
    NullTaskHandle.add_observer h o = (h, []) ∧
    NullTaskHandle.current_jobset h = none ∧
    NullJobSet.started_job j n = Except.ok j ∧
    NullJobSet.finished_job j = Except.ok j ∧
    NullJobSet.check_status j = Except.ok () ∧
    NullJobSet.get_active_job_name j = none ∧
    NullJobSet.get_percent_done j = none ∧
    NullJobSet.get_name j = none ∧
    NullJobSet.increment j = Except.ok j :=
  ⟨rfl, rfl, rfl, rfl, rfl, rfl, rfl, rfl, rfl, rfl, rfl, rfl, rfl⟩

/-- C9: on a job set whose `count` is a defined number `c`, a single
`increment()` succeeds and yields a job set with `count = c + 1` and
`done`, `job_name` and `name` unchanged. -/
theorem increment_defined_count_exact (js : JobSetState) (c : Int)
    (h : js.count = some c) :
    ∃ js', JobSet.increment js = Except.ok js' ∧ js'.count = some (c + 1) ∧
      js'.done = js.done ∧ js'.job_name = js.job_name ∧ js'.name = js.name := by
  refine ⟨{ js with count := some (c + 1) }, ?_, rfl, rfl, rfl, rfl⟩
  simp [JobSet.increment, h]

/-- Witness for C9 at a concrete job set with `count = 3`, `done = 2`. -/
theorem increment_defined_count_exact_witness :
    ∃ js', JobSet.increment
        { name := "JobSet", count := some 3, done := 2, job_name := none } =
      Except.ok js' ∧ js'.count = some 4 ∧ js'.done = 2 ∧
      js'.job_name = none ∧ js'.name = "JobSet" := by
  have t := increment_defined_count_exact
    { name := "JobSet", count := some 3, done := 2, job_name := none } 3 rfl
  simpa using t

/-- C10: `increment` never raises `InterruptedTaskError` (not even on a
stopped handle — it can only raise `TypeError`), `get_percent_done`
never raises at all, and any operation that does raise
`InterruptedTaskError` is a `started_job`, `finished_job` or
`check_status` call. -/
theorem only_status_checks_raise_interrupted (s : TaskHandleState) (i : Nat)
    (op : Op) (js : JobSetState) :
    (step s (Op.increment i)).error ≠ some PyError.interrupted ∧
    (step s (Op.getPercentDone i)).error = none ∧
    JobSet.increment js ≠ Except.error PyError.interrupted ∧
    ((step s op).error = some PyError.interrupted →
      (∃ j n, op = Op.startedJob j n) ∨ (∃ j, op = Op.finishedJob j) ∨
        (∃ j, op = Op.checkStatus j)) := by
  refine ⟨?_, rfl, ?_, fun h => (step_interrupted_shape s op h).2⟩
  · rw [step_increment_eq]
    split
    · split <;> simp
    · simp
  · cases hc : js.count <;> simp [JobSet.increment, hc]

/-- Witness for C10 on a stopped handle: `increment` does not raise
`InterruptedTaskError` there, and the raising-operation characterization
applies to a concrete `check_status` call. -/
theorem only_status_checks_raise_interrupted_witness :
    (step (TaskHandleState.mk "Task" true true [] []) (Op.increment 0)).error ≠
      some PyError.interrupted ∧
    ((∃ j n, Op.checkStatus 0 = Op.startedJob j n) ∨
      (∃ j, Op.checkStatus 0 = Op.finishedJob j) ∨
      (∃ j, Op.checkStatus 0 = Op.checkStatus j)) := by
  have t := only_status_checks_raise_interrupted
    (TaskHandleState.mk "Task" true true [] []) 0 (Op.checkStatus 0)
    { name := "J", count := none, done := 0, job_name := none }
  exact ⟨t.1, t.2.2.2 rfl⟩
